import Mathlib

/-!
Shallow embedding of `src/sync/mpsc.rs` from the coio-rs repository: the
coroutine-aware mpsc channel wrappers (`Sender`/`Receiver` for the unbounded
channel, `SyncSender`/`SyncReceiver` for the bounded one) around the
`std::sync::mpsc` primitive, together with the parking protocol they use.

The underlying queue primitive (`std::sync::mpsc`), the scheduler
(`Processor::park_with`, `Scheduler::ready`) and the wait-list container
(`HandleList`) are not part of the sources under verification; they are
modelled from the specification.  Everything in namespaces `Sender`,
`Receiver`, `SyncSender` and `SyncReceiver` is translated directly from
`src/sync/mpsc.rs`.

State model.  A `Chan T` bundles the whole shared state one channel pair can
touch: the primitive's FIFO buffer and connectivity flags, the two wait lists
of parked coroutine handles, and the list of handles that have been marked
ready (`Scheduler::ready` / `p.ready`).  Handles are natural numbers.
Coroutine suspension is modelled with fuel plus an environment, a list of
arbitrary state transformers standing for what other threads do at the two
interleaving points that matter to the protocol: one entry is applied in the
race window between a failed non-blocking attempt and the acquisition of the
wait-list lock (the window the double-check closes), and one entry when a
truly parked coroutine is later woken, before the loop re-runs.
-/

namespace CoioMpsc

/-- Result of a non-blocking receive, mirroring `Result<T, TryRecvError>`. -/
inductive TryRecvRes (T : Type) where
  | ok (v : T)
  | empty
  | disconnected
deriving DecidableEq, Repr

/-- Result of a non-blocking bounded send, mirroring
`Result<(), TrySendError<T>>`; the error variants carry the rejected value. -/
inductive TrySendRes (T : Type) where
  | ok
  | full (t : T)
  | disconnected (t : T)
deriving DecidableEq, Repr

/-- Result of a blocking receive, mirroring `Result<T, RecvError>`:
`RecvError` has no information beyond disconnection. -/
inductive RecvRes (T : Type) where
  | ok (v : T)
  | err
deriving DecidableEq, Repr

/-- Result of a blocking send, mirroring `Result<(), SendError<T>>`:
`SendError` carries back the undelivered value. -/
inductive SendRes (T : Type) where
  | ok
  | err (t : T)
deriving DecidableEq, Repr

/-- The complete shared state of one channel pair.
`queue` is the primitive's FIFO buffer; `cap` its capacity (`none` for the
unbounded channel); `senders` the number of live producer endpoints;
`receiverAlive` whether the consumer endpoint is live; `sendWait` and
`recvWait` the two wait lists of parked handles; `ready` the handles marked
ready so far, in wakeup order. -/
structure Chan (T : Type) where
  queue : List T
  cap : Option Nat
  senders : Nat
  receiverAlive : Bool
  sendWait : List Nat
  recvWait : List Nat
  ready : List Nat
deriving DecidableEq, Repr

variable {T : Type}

/-- Modelled from the spec: the primitive's non-blocking `try_recv`
(spec 4.1), returning the FIFO head on success, `Empty` when no item is
buffered and a producer remains, `Disconnected` once the producer side is
entirely gone. -/
def prim_try_recv (c : Chan T) : TryRecvRes T × Chan T :=
  match c.queue with
  | v :: rest => (.ok v, { c with queue := rest })
  | [] => if c.senders = 0 then (.disconnected, c) else (.empty, c)

/-- Modelled from the spec: the primitive's non-blocking `try_send`
(spec 4.1), rejecting with `Disconnected` once the consumer is gone and with
`Full` when a bounded buffer is at capacity; the rejected value is handed
back unchanged. -/
def prim_try_send (c : Chan T) (t : T) : TrySendRes T × Chan T :=
  if c.receiverAlive = false then (.disconnected t, c)
  else
    match c.cap with
    | some k =>
        if k ≤ c.queue.length then (.full t, c)
        else (.ok, { c with queue := c.queue ++ [t] })
    | none => (.ok, { c with queue := c.queue ++ [t] })

/-- Modelled from the spec: the unbounded primitive's `send`
(spec 4.1), which fails only when the consumer is gone, handing the value
back. -/
def prim_send (c : Chan T) (t : T) : SendRes T × Chan T :=
  if c.receiverAlive then (.ok, { c with queue := c.queue ++ [t] })
  else (.err t, c)

/-- Modelled from the spec: the primitive's native blocking `recv`
(spec 4.1 and 4.3 step 1).  `none` stands for the call blocking because no
item is available while producers remain; otherwise the result is returned
directly. -/
def prim_recv_blocking (c : Chan T) : Option (RecvRes T × Chan T) :=
  match c.queue with
  | v :: rest => some (.ok v, { c with queue := rest })
  | [] => if c.senders = 0 then some (.err, c) else none

/-- Modelled from the spec: the bounded primitive's native blocking `send`
(spec 4.1 and 4.3 step 1).  `none` stands for the call blocking on a full
buffer while the consumer remains. -/
def prim_send_blocking (c : Chan T) (t : T) : Option (SendRes T × Chan T) :=
  if c.receiverAlive = false then some (.err t, c)
  else
    match c.cap with
    | some k =>
        if k ≤ c.queue.length then none
        else some (.ok, { c with queue := c.queue ++ [t] })
    | none => some (.ok, { c with queue := c.queue ++ [t] })

/-- Modelled from the spec: popping the front of a wait list (`HandleList::pop_front`)
and, when a handle is present, marking it ready (`Scheduler::ready`,
spec 4.4 and 6).  Returns the updated wait list and ready list. -/
def wakeOne (wl : List Nat) (rd : List Nat) : List Nat × List Nat :=
  match wl with
  | [] => ([], rd)
  | h :: rest => (rest, rd ++ [h])

/-- Modelled from the spec: draining a wait list, marking every handle ready
in FIFO order (the `while let Some(hdl) = wait_list.pop_front()` drop loops,
spec 4.5). -/
def drainWake (wl : List Nat) (rd : List Nat) : List Nat × List Nat :=
  ([], rd ++ wl)

namespace Sender

/-- `Sender::send` (src/sync/mpsc.rs lines 30-41): forward to the primitive's
send; on success pop one handle off the consumer wait list and mark it ready;
on failure return the error unchanged. -/
def send (c : Chan T) (t : T) : SendRes T × Chan T :=
  match prim_send c t with
  | (.ok, c') =>
      let p := wakeOne c'.recvWait c'.ready
      (.ok, { c' with recvWait := p.1, ready := p.2 })
  | (.err e, c') => (.err e, c')

/-- `impl Drop for Sender` (lines 44-61): release the inner primitive sender
first, then, if `Arc::strong_count(&self.wait_list) <= 2`, drain the consumer
wait list and mark every handle ready.  At the moment of the check the
wait-list `Arc` is held by every live `Sender` struct (including the one
being dropped, whose fields are released only after `drop` returns) and by
the `Receiver` struct if it is still alive, so the strong count is
`c.senders + (if c.receiverAlive then 1 else 0)`. -/
def drop (c : Chan T) : Chan T :=
  let c1 : Chan T := { c with senders := c.senders - 1 }
  if c.senders + (if c.receiverAlive then 1 else 0) ≤ 2 then
    let p := drainWake c1.recvWait c1.ready
    { c1 with recvWait := p.1, ready := p.2 }
  else c1

end Sender

namespace Receiver

/-- `Receiver::try_recv` (lines 72-74): directly the primitive's `try_recv`. -/
def try_recv (c : Chan T) : TryRecvRes T × Chan T :=
  prim_try_recv c

/-- The setup closure passed to `processor.park_with` in `Receiver::recv`
(lines 87-105): with the wait list locked, re-attempt `try_recv`; if still
`Empty`, push the coroutine's handle onto the wait list (the suspend
proceeds); otherwise mark the handle ready (cancelling the suspend).  The
re-attempt's result is stashed (returned) in either case. -/
def parkSetup (c : Chan T) (coro : Nat) : TryRecvRes T × Chan T :=
  match try_recv c with
  | (.empty, c') => (.empty, { c' with recvWait := c'.recvWait ++ [coro] })
  | (r, c') => (r, { c' with ready := c'.ready ++ [coro] })

/-- The `while let Some(processor) = Processor::current()` loop of
`Receiver::recv` (lines 77-113), with fuel bounding the number of
iterations.  Interleaving by other threads is modelled by the environment: a
first entry is applied to the state inside the race window between the
failed non-blocking attempt (step 1) and the acquisition of the wait-list
lock in the `park_with` setup — the window the setup's re-attempt exists to
close — and, when the coroutine truly parks, a second entry is applied
before the loop re-runs, standing for the external activity that wakes the
coroutine.  An exhausted environment means no other thread ever acts again,
so a parked coroutine never resumes.  The returned value is the stashed `r`
at the `return` site: `Ok v` or `Disconnected` (mapped to `RecvError` in
`recv`). -/
def recvLoop : Nat → List (Chan T → Chan T) → Chan T → Nat →
    Option (TryRecvRes T × Chan T)
  | 0, _, _, _ => none
  | fuel + 1, env, c, coro =>
      match try_recv c with
      | (.ok v, c') => some (.ok v, c')
      | (.disconnected, c') => some (.disconnected, c')
      | (.empty, c') =>
          match env with
          | [] => none
          | g :: env1 =>
              match parkSetup (g c') coro with
              | (.empty, c2) =>
                  match env1 with
                  | [] => none
                  | f :: env2 => recvLoop fuel env2 (f c2) coro
              | (r, c2) => some (r, c2)

/-- `Receiver::recv` (lines 76-117): with a scheduling context
(`hasProc = true`), run the parking loop and translate its stashed result
into `Result<T, RecvError>`; without one, fall back to the primitive's
native blocking `recv` (lines 115-116) and return its result as-is. -/
def recv (hasProc : Bool) (fuel : Nat) (env : List (Chan T → Chan T))
    (c : Chan T) (coro : Nat) : Option (RecvRes T × Chan T) :=
  if hasProc then
    match recvLoop fuel env c coro with
    | some (.ok v, c') => some (.ok v, c')
    | some (_, c') => some (.err, c')
    | none => none
  else
    prim_recv_blocking c

end Receiver

namespace SyncSender

/-- `SyncSender::try_send` (lines 149-164): forward to the primitive's
`try_send`; on success pop one handle off the consumer wait list and mark it
ready; on failure return the error unchanged. -/
def try_send (c : Chan T) (t : T) : TrySendRes T × Chan T :=
  match prim_try_send c t with
  | (.ok, c') =>
      let p := wakeOne c'.recvWait c'.ready
      (.ok, { c' with recvWait := p.1, ready := p.2 })
  | (e, c') => (e, c')

/-- The setup closure passed to `p.park_with` in `SyncSender::send`
(lines 181-195): with the send wait list locked, re-attempt `self.try_send`
(the wrapper, so a success also wakes one consumer waiter); if still `Full`,
push the coroutine's handle onto the send wait list (the suspend proceeds);
otherwise mark the handle ready (cancelling the suspend).  The re-attempt's
result is stashed through `r_ptr` in either case. -/
def parkSetup (c : Chan T) (t : T) (coro : Nat) : TrySendRes T × Chan T :=
  match try_send c t with
  | (.full t', c') => (.full t', { c' with sendWait := c'.sendWait ++ [coro] })
  | (r, c') => (r, { c' with ready := c'.ready ++ [coro] })

/-- The `while let Some(p) = Processor::current()` loop of `SyncSender::send`
(lines 167-205), fuel-bounded.  The value rejected by a `Full` result is
re-bound and threaded into the next round.  As in `Receiver.recvLoop`, one
environment entry models interleaving inside the race window between the
failed non-blocking attempt and the wait-list lock, and a second entry the
activity that wakes a truly parked coroutine; the returned value is the
stashed `r` at the `return` site. -/
def sendLoop : Nat → List (Chan T → Chan T) → Chan T → T → Nat →
    Option (TrySendRes T × Chan T)
  | 0, _, _, _, _ => none
  | fuel + 1, env, c, t, coro =>
      match try_send c t with
      | (.ok, c') => some (.ok, c')
      | (.disconnected e, c') => some (.disconnected e, c')
      | (.full t1, c') =>
          match env with
          | [] => none
          | g :: env1 =>
              match parkSetup (g c') t1 coro with
              | (.full t2, c2) =>
                  match env1 with
                  | [] => none
                  | f :: env2 => sendLoop fuel env2 (f c2) t2 coro
              | (r, c2) => some (r, c2)

/-- `SyncSender::send` (lines 166-218): with a scheduling context, run the
parking loop, translating `Disconnected(e)` to `SendError(e)`; without one,
fall back to the primitive's native blocking `send` (lines 207-217) and, when
it succeeds, pop one handle off the consumer wait list and mark it ready. -/
def send (hasProc : Bool) (fuel : Nat) (env : List (Chan T → Chan T))
    (c : Chan T) (t : T) (coro : Nat) : Option (SendRes T × Chan T) :=
  if hasProc then
    match sendLoop fuel env c t coro with
    | some (.ok, c') => some (.ok, c')
    | some (.disconnected e, c') => some (.err e, c')
    | some (.full e, c') => some (.err e, c')
    | none => none
  else
    match prim_send_blocking c t with
    | some (.ok, c') =>
        let p := wakeOne c'.recvWait c'.ready
        some (.ok, { c' with recvWait := p.1, ready := p.2 })
    | some (.err e, c') => some (.err e, c')
    | none => none

/-- `impl Drop for SyncSender` (lines 221-241): release the inner primitive
sender first, then, if `Arc::strong_count(&self.recv_wait_list) <= 2`, drain
the consumer wait list and mark every handle ready.  The `recv_wait_list`
`Arc` is held by every live `SyncSender` struct (including the one being
dropped) and by the `SyncReceiver` struct if still alive. -/
def drop (c : Chan T) : Chan T :=
  let c1 : Chan T := { c with senders := c.senders - 1 }
  if c.senders + (if c.receiverAlive then 1 else 0) ≤ 2 then
    let p := drainWake c1.recvWait c1.ready
    { c1 with recvWait := p.1, ready := p.2 }
  else c1

end SyncSender

namespace SyncReceiver

/-- `SyncReceiver::try_recv` (lines 252-267): forward to the primitive's
`try_recv`; on success pop one handle off the producer wait list and mark it
ready; on failure return the error unchanged. -/
def try_recv (c : Chan T) : TryRecvRes T × Chan T :=
  match prim_try_recv c with
  | (.ok v, c') =>
      let p := wakeOne c'.sendWait c'.ready
      (.ok v, { c' with sendWait := p.1, ready := p.2 })
  | (e, c') => (e, c')

/-- The setup closure passed to `processor.park_with` in
`SyncReceiver::recv` (lines 279-292): with the receive wait list locked,
re-attempt `self.try_recv` (the wrapper, so a success also wakes one producer
waiter); if still `Empty`, push the coroutine's handle onto the receive wait
list; otherwise mark the handle ready, cancelling the suspend. -/
def parkSetup (c : Chan T) (coro : Nat) : TryRecvRes T × Chan T :=
  match try_recv c with
  | (.empty, c') => (.empty, { c' with recvWait := c'.recvWait ++ [coro] })
  | (r, c') => (r, { c' with ready := c'.ready ++ [coro] })

/-- The `while let Some(processor) = Processor::current()` loop of
`SyncReceiver::recv` (lines 270-299), fuel-bounded, with the same environment
convention as `Receiver.recvLoop` (one entry for the race window before the
wait-list lock, one for the activity that wakes a parked coroutine). -/
def recvLoop : Nat → List (Chan T → Chan T) → Chan T → Nat →
    Option (TryRecvRes T × Chan T)
  | 0, _, _, _ => none
  | fuel + 1, env, c, coro =>
      match try_recv c with
      | (.ok v, c') => some (.ok v, c')
      | (.disconnected, c') => some (.disconnected, c')
      | (.empty, c') =>
          match env with
          | [] => none
          | g :: env1 =>
              match parkSetup (g c') coro with
              | (.empty, c2) =>
                  match env1 with
                  | [] => none
                  | f :: env2 => recvLoop fuel env2 (f c2) coro
              | (r, c2) => some (r, c2)

/-- `SyncReceiver::recv` (lines 269-312): with a scheduling context, run the
parking loop; without one, fall back to the primitive's native blocking
`recv` (lines 302-311) and, when it succeeds, pop one handle off the
producer wait list and mark it ready. -/
def recv (hasProc : Bool) (fuel : Nat) (env : List (Chan T → Chan T))
    (c : Chan T) (coro : Nat) : Option (RecvRes T × Chan T) :=
  if hasProc then
    match recvLoop fuel env c coro with
    | some (.ok v, c') => some (.ok v, c')
    | some (_, c') => some (.err, c')
    | none => none
  else
    match prim_recv_blocking c with
    | some (.ok v, c') =>
        let p := wakeOne c'.sendWait c'.ready
        some (.ok v, { c' with sendWait := p.1, ready := p.2 })
    | some (.err, c') => some (.err, c')
    | none => none

/-- `impl Drop for SyncReceiver` (lines 315-332): release the inner primitive
receiver first, then unconditionally drain the producer wait list, marking
every handle ready. -/
def drop (c : Chan T) : Chan T :=
  let c1 : Chan T := { c with receiverAlive := false }
  let p := drainWake c1.sendWait c1.ready
  { c1 with sendWait := p.1, ready := p.2 }

end SyncReceiver

end CoioMpsc

/-! ## Supporting lemmas -/

namespace CoioMpsc

variable {T : Type}

theorem wakeOne_eq (wl rd : List Nat) :
    wakeOne wl rd = (wl.drop 1, rd ++ wl.take 1) := by
  cases wl <;> simp [wakeOne]

theorem prim_try_recv_frame (c : Chan T) :
    (prim_try_recv c).2.cap = c.cap ∧
    (prim_try_recv c).2.senders = c.senders ∧
    (prim_try_recv c).2.receiverAlive = c.receiverAlive ∧
    (prim_try_recv c).2.sendWait = c.sendWait ∧
    (prim_try_recv c).2.recvWait = c.recvWait ∧
    (prim_try_recv c).2.ready = c.ready := by
  unfold prim_try_recv
  cases c.queue <;> simp
  split <;> simp

theorem prim_try_recv_empty (c : Chan T)
    (h : (prim_try_recv c).1 = TryRecvRes.empty) :
    prim_try_recv c = (TryRecvRes.empty, c) := by
  unfold prim_try_recv at h ⊢
  split at h
  · simp_all
  · split at h <;> simp_all

theorem prim_try_recv_disconnected (c : Chan T)
    (h : (prim_try_recv c).1 = TryRecvRes.disconnected) :
    prim_try_recv c = (TryRecvRes.disconnected, c) := by
  unfold prim_try_recv at h ⊢
  split at h
  · simp_all
  · split at h <;> simp_all

theorem prim_try_send_full (c : Chan T) (t u : T)
    (h : (prim_try_send c t).1 = TrySendRes.full u) :
    u = t ∧ prim_try_send c t = (TrySendRes.full t, c) := by
  unfold prim_try_send at h ⊢
  split at h
  · simp_all
  · split at h
    · split at h <;> simp_all
    · simp_all

theorem prim_try_send_disconnected (c : Chan T) (t u : T)
    (h : (prim_try_send c t).1 = TrySendRes.disconnected u) :
    u = t ∧ prim_try_send c t = (TrySendRes.disconnected t, c) := by
  unfold prim_try_send at h ⊢
  split at h
  · simp_all
  · split at h
    · split at h <;> simp_all
    · simp_all

theorem prim_try_send_frame (c : Chan T) (t : T) :
    (prim_try_send c t).2.cap = c.cap ∧
    (prim_try_send c t).2.senders = c.senders ∧
    (prim_try_send c t).2.receiverAlive = c.receiverAlive ∧
    (prim_try_send c t).2.sendWait = c.sendWait ∧
    (prim_try_send c t).2.recvWait = c.recvWait ∧
    (prim_try_send c t).2.ready = c.ready := by
  unfold prim_try_send
  split
  · simp
  · split
    · split <;> simp
    · simp

theorem prim_send_frame (c : Chan T) (t : T) :
    (prim_send c t).2.sendWait = c.sendWait ∧
    (prim_send c t).2.recvWait = c.recvWait ∧
    (prim_send c t).2.ready = c.ready := by
  unfold prim_send
  split <;> simp

theorem Sender.send_eq (c : Chan T) (t : T) :
    Sender.send c t =
      if c.receiverAlive then
        (SendRes.ok, { c with queue := c.queue ++ [t],
                              recvWait := c.recvWait.drop 1,
                              ready := c.ready ++ c.recvWait.take 1 })
      else (SendRes.err t, c) := by
  unfold Sender.send prim_send
  by_cases hb : c.receiverAlive = true <;> simp [hb, wakeOne_eq]

theorem SyncSender.try_send_eq (c : Chan T) (t : T) :
    SyncSender.try_send c t =
      if c.receiverAlive = false then (TrySendRes.disconnected t, c)
      else
        match c.cap with
        | some k =>
            if k ≤ c.queue.length then (TrySendRes.full t, c)
            else (TrySendRes.ok, { c with queue := c.queue ++ [t],
                                          recvWait := c.recvWait.drop 1,
                                          ready := c.ready ++ c.recvWait.take 1 })
        | none => (TrySendRes.ok, { c with queue := c.queue ++ [t],
                                           recvWait := c.recvWait.drop 1,
                                           ready := c.ready ++ c.recvWait.take 1 }) := by
  unfold SyncSender.try_send prim_try_send
  by_cases hb : c.receiverAlive = false
  · simp [hb]
  · rcases hc : c.cap with _ | k
    · simp [hb, hc, wakeOne_eq]
    · by_cases hk : k ≤ c.queue.length <;> simp [hb, hc, hk, wakeOne_eq]

theorem SyncReceiver.try_recv_eq (c : Chan T) :
    SyncReceiver.try_recv c =
      match c.queue with
      | v :: rest =>
          (TryRecvRes.ok v, { c with queue := rest,
                                     sendWait := c.sendWait.drop 1,
                                     ready := c.ready ++ c.sendWait.take 1 })
      | [] =>
          if c.senders = 0 then (TryRecvRes.disconnected, c)
          else (TryRecvRes.empty, c) := by
  unfold SyncReceiver.try_recv prim_try_recv
  rcases hq : c.queue with _ | ⟨v, rest⟩
  · by_cases hs : c.senders = 0 <;> simp [hq, hs]
  · simp [hq, wakeOne_eq]

end CoioMpsc

namespace CoioMpsc

variable {T : Type}

/-- C3: Dropping the `SyncReceiver` unconditionally drains the producer-side
wait list and marks every waiter in it ready, after releasing its half of the
primitive (`receiverAlive` is cleared), so that any send attempted or parked
thereafter observes `Disconnected` rather than hanging: a retried `try_send`
reports `Disconnected`, and `SyncSender::send` returns `SendError` carrying
the value back, in both the coroutine and the no-scheduler path. -/
theorem C3_sync_receiver_drop_wakes_producers (c : Chan T) (t : T)
    (fuel : Nat) (env : List (Chan T → Chan T)) (coro : Nat) :
    (SyncReceiver.drop c).sendWait = [] ∧
    (SyncReceiver.drop c).ready = c.ready ++ c.sendWait ∧
    (SyncReceiver.drop c).receiverAlive = false ∧
    (SyncSender.try_send (SyncReceiver.drop c) t).1 = TrySendRes.disconnected t ∧
    SyncSender.send true (fuel + 1) env (SyncReceiver.drop c) t coro =
      some (SendRes.err t, SyncReceiver.drop c) ∧
    SyncSender.send false fuel env (SyncReceiver.drop c) t coro =
      some (SendRes.err t, SyncReceiver.drop c) := by
  refine ⟨rfl, rfl, rfl, ?_, ?_, ?_⟩ <;>
    simp [SyncReceiver.drop, drainWake, SyncSender.try_send, prim_try_send,
      SyncSender.send, SyncSender.sendLoop, prim_send_blocking]

/-- C6: Every successful `Sender::send` or `SyncSender::try_send` pops at
most one handle from the consumer-side wait list and marks exactly that
handle ready, and every successful `SyncReceiver::try_recv` pops at most one
handle from the producer-side wait list and marks it ready; no single
successful operation wakes more than one waiter. -/
theorem C6_wake_at_most_one (c : Chan T) (t : T) :
    ((Sender.send c t).1 = SendRes.ok →
      (Sender.send c t).2.recvWait = c.recvWait.drop 1 ∧
      (Sender.send c t).2.ready = c.ready ++ c.recvWait.take 1) ∧
    ((SyncSender.try_send c t).1 = TrySendRes.ok →
      (SyncSender.try_send c t).2.recvWait = c.recvWait.drop 1 ∧
      (SyncSender.try_send c t).2.ready = c.ready ++ c.recvWait.take 1) ∧
    (∀ v : T, (SyncReceiver.try_recv c).1 = TryRecvRes.ok v →
      (SyncReceiver.try_recv c).2.sendWait = c.sendWait.drop 1 ∧
      (SyncReceiver.try_recv c).2.ready = c.ready ++ c.sendWait.take 1) := by
  refine ⟨?_, ?_, ?_⟩
  · intro h
    rw [Sender.send_eq] at h ⊢
    by_cases hb : c.receiverAlive = true <;> simp [hb] at h ⊢
  · intro h
    rw [SyncSender.try_send_eq] at h ⊢
    by_cases hb : c.receiverAlive = false
    · simp [hb] at h
    · rcases hc : c.cap with _ | k
      · simp [hb, hc]
      · by_cases hk : k ≤ c.queue.length <;> simp [hb, hc, hk] at h ⊢
  · intro v h
    rw [SyncReceiver.try_recv_eq] at h ⊢
    rcases hq : c.queue with _ | ⟨w, rest⟩
    · by_cases hs : c.senders = 0 <;> simp [hq, hs] at h
    · simp [hq]

/-- C8: `SyncSender::try_send` on a full bounded channel (capacity reached,
consumer still alive) returns `Full` carrying the rejected value back
unchanged, and leaves the whole channel state — queue contents, send wait
list and receive wait list — exactly as before the call. -/
theorem C8_try_send_full_rejection (c : Chan T) (t : T) (k : Nat)
    (hcap : c.cap = some k) (hfull : k ≤ c.queue.length)
    (halive : c.receiverAlive = true) :
    SyncSender.try_send c t = (TrySendRes.full t, c) := by
  unfold SyncSender.try_send prim_try_send
  simp [hcap, halive, hfull]

/-- C10: When the underlying primitive rejects an operation, no wait list is
touched: a failing `Sender::send`, `SyncSender::try_send` or
`SyncReceiver::try_recv` returns the error with the channel state — in
particular both wait lists and the ready list — completely unmodified. -/
theorem C10_rejection_touches_no_wait_list (c : Chan T) (t : T) :
    (∀ e, (Sender.send c t).1 = SendRes.err e → (Sender.send c t).2 = c) ∧
    (∀ e, (SyncSender.try_send c t).1 = TrySendRes.full e →
      (SyncSender.try_send c t).2 = c) ∧
    (∀ e, (SyncSender.try_send c t).1 = TrySendRes.disconnected e →
      (SyncSender.try_send c t).2 = c) ∧
    ((SyncReceiver.try_recv c).1 = TryRecvRes.empty →
      (SyncReceiver.try_recv c).2 = c) ∧
    ((SyncReceiver.try_recv c).1 = TryRecvRes.disconnected →
      (SyncReceiver.try_recv c).2 = c) := by
  refine ⟨?_, ?_, ?_, ?_, ?_⟩
  · intro e h
    rw [Sender.send_eq] at h ⊢
    by_cases hb : c.receiverAlive = true <;> simp [hb] at h ⊢
  · intro e h
    rw [SyncSender.try_send_eq] at h ⊢
    by_cases hb : c.receiverAlive = false
    · simp [hb] at h
    · rcases hc : c.cap with _ | k
      · simp [hb, hc] at h
      · by_cases hk : k ≤ c.queue.length <;> simp [hb, hc, hk] at h ⊢
  · intro e h
    rw [SyncSender.try_send_eq] at h ⊢
    by_cases hb : c.receiverAlive = false
    · simp [hb]
    · rcases hc : c.cap with _ | k
      · simp [hb, hc] at h
      · by_cases hk : k ≤ c.queue.length <;> simp [hb, hc, hk] at h ⊢
  · intro h
    rw [SyncReceiver.try_recv_eq] at h ⊢
    rcases hq : c.queue with _ | ⟨w, rest⟩
    · by_cases hs : c.senders = 0 <;> simp [hq, hs] at h ⊢
    · simp [hq] at h
  · intro h
    rw [SyncReceiver.try_recv_eq] at h ⊢
    rcases hq : c.queue with _ | ⟨w, rest⟩
    · by_cases hs : c.senders = 0 <;> simp [hq, hs] at h ⊢
    · simp [hq] at h

/-- C7: With no cooperative scheduling context (`hasProc = false`), the
blocking entry points fall through to the primitive's native blocking
operation and return its result as-is: `Receiver::recv` returns exactly the
native result, and `SyncReceiver::recv` / `SyncSender::send` return the same
result value the native blocking operation produces. -/
theorem C7_no_processor_fallback (fuel : Nat) (env : List (Chan T → Chan T))
    (c : Chan T) (t : T) (coro : Nat) :
    Receiver.recv false fuel env c coro = prim_recv_blocking c ∧
    Option.map (fun p => p.1) (SyncReceiver.recv false fuel env c coro) =
      Option.map (fun p => p.1) (prim_recv_blocking c) ∧
    Option.map (fun p => p.1) (SyncSender.send false fuel env c t coro) =
      Option.map (fun p => p.1) (prim_send_blocking c t) := by
  refine ⟨by simp [Receiver.recv], ?_, ?_⟩
  · unfold SyncReceiver.recv
    rcases hp : prim_recv_blocking c with _ | ⟨r, c'⟩
    · simp [hp]
    · cases r <;> simp [hp]
  · unfold SyncSender.send
    rcases hp : prim_send_blocking c t with _ | ⟨r, c'⟩
    · simp [hp]
    · cases r <;> simp [hp]

end CoioMpsc

namespace CoioMpsc

variable {T : Type}

theorem SyncSender.try_send_full_inv (c : Chan T) (t u : T)
    (h : (SyncSender.try_send c t).1 = TrySendRes.full u) :
    u = t ∧ SyncSender.try_send c t = (TrySendRes.full t, c) := by
  rw [SyncSender.try_send_eq] at h ⊢
  by_cases hb : c.receiverAlive = false
  · simp [hb] at h
  · rcases hc : c.cap with _ | k
    · simp [hb, hc] at h
    · by_cases hk : k ≤ c.queue.length <;> simp [hb, hc, hk] at h ⊢
      exact h.symm

theorem SyncSender.try_send_disconnected_inv (c : Chan T) (t u : T)
    (h : (SyncSender.try_send c t).1 = TrySendRes.disconnected u) :
    u = t ∧ SyncSender.try_send c t = (TrySendRes.disconnected t, c) := by
  rw [SyncSender.try_send_eq] at h ⊢
  by_cases hb : c.receiverAlive = false
  · simp [hb] at h ⊢
    exact h.symm
  · rcases hc : c.cap with _ | k
    · simp [hb, hc] at h
    · by_cases hk : k ≤ c.queue.length <;> simp [hb, hc, hk] at h

theorem Receiver.parkSetup_stash (c : Chan T) (coro : Nat) :
    (Receiver.parkSetup c coro).1 = (Receiver.try_recv c).1 := by
  unfold Receiver.parkSetup
  rcases hp : Receiver.try_recv c with ⟨r, c'⟩
  cases r <;> simp

theorem Receiver.parkSetup_empty (c : Chan T) (coro : Nat)
    (h : (prim_try_recv c).1 = TryRecvRes.empty) :
    Receiver.parkSetup c coro =
      (TryRecvRes.empty, { c with recvWait := c.recvWait ++ [coro] }) := by
  have he := prim_try_recv_empty c h
  unfold Receiver.parkSetup Receiver.try_recv
  rw [he]

theorem Receiver.parkSetup_nonempty (c : Chan T) (coro : Nat)
    (h : (prim_try_recv c).1 ≠ TryRecvRes.empty) :
    Receiver.parkSetup c coro =
      ((prim_try_recv c).1,
        { (prim_try_recv c).2 with
            ready := (prim_try_recv c).2.ready ++ [coro] }) := by
  unfold Receiver.parkSetup Receiver.try_recv
  rcases hp : prim_try_recv c with ⟨r, c'⟩
  rw [hp] at h
  cases r <;> simp_all

theorem SyncSender.sendParkSetup_stash (c : Chan T) (t : T) (coro : Nat) :
    (SyncSender.parkSetup c t coro).1 = (SyncSender.try_send c t).1 := by
  unfold SyncSender.parkSetup
  rcases hp : SyncSender.try_send c t with ⟨r, c'⟩
  cases r <;> simp

theorem SyncSender.parkSetup_full (c : Chan T) (t u : T) (coro : Nat)
    (h : (SyncSender.try_send c t).1 = TrySendRes.full u) :
    SyncSender.parkSetup c t coro =
      (TrySendRes.full t, { c with sendWait := c.sendWait ++ [coro] }) := by
  obtain ⟨hu, he⟩ := SyncSender.try_send_full_inv c t u h
  unfold SyncSender.parkSetup
  rw [he]

theorem SyncSender.parkSetup_nonfull (c : Chan T) (t : T) (coro : Nat)
    (h : ∀ u, (SyncSender.try_send c t).1 ≠ TrySendRes.full u) :
    SyncSender.parkSetup c t coro =
      ((SyncSender.try_send c t).1,
        { (SyncSender.try_send c t).2 with
            ready := (SyncSender.try_send c t).2.ready ++ [coro] }) := by
  unfold SyncSender.parkSetup
  rcases hp : SyncSender.try_send c t with ⟨r, c'⟩
  cases r with
  | ok => simp
  | full u => exact absurd (by rw [hp]) (h u)
  | disconnected u => simp

theorem SyncReceiver.syncParkSetup_stash (c : Chan T) (coro : Nat) :
    (SyncReceiver.parkSetup c coro).1 = (SyncReceiver.try_recv c).1 := by
  unfold SyncReceiver.parkSetup
  rcases hp : SyncReceiver.try_recv c with ⟨r, c'⟩
  cases r <;> simp

end CoioMpsc

namespace CoioMpsc

variable {T : Type}

theorem Receiver.recvLoop_ne_empty (fuel : Nat) :
    ∀ (env : List (Chan T → Chan T)) (c : Chan T) (coro : Nat)
      (r : TryRecvRes T) (c' : Chan T),
      Receiver.recvLoop fuel env c coro = some (r, c') →
      r ≠ TryRecvRes.empty := by
  induction fuel with
  | zero =>
      intro env c coro r c' h
      simp [Receiver.recvLoop] at h
  | succ n ih =>
      intro env c coro r c' h
      rw [Receiver.recvLoop] at h
      rcases hp : Receiver.try_recv c with ⟨r0, c0⟩
      rw [hp] at h
      cases r0 with
      | ok v => simp at h; simp [← h.1]
      | disconnected => simp at h; simp [← h.1]
      | empty =>
          simp only at h
          cases env with
          | nil => simp at h
          | cons g env1 =>
              simp only at h
              rcases hps : Receiver.parkSetup (g c0) coro with ⟨r1, c2⟩
              rw [hps] at h
              cases r1 with
              | empty =>
                  cases env1 with
                  | nil => simp at h
                  | cons f env2 => exact ih env2 (f c2) coro r c' h
              | ok v => simp at h; simp [← h.1]
              | disconnected => simp at h; simp [← h.1]

theorem SyncReceiver.syncRecvLoop_ne_empty (fuel : Nat) :
    ∀ (env : List (Chan T → Chan T)) (c : Chan T) (coro : Nat)
      (r : TryRecvRes T) (c' : Chan T),
      SyncReceiver.recvLoop fuel env c coro = some (r, c') →
      r ≠ TryRecvRes.empty := by
  induction fuel with
  | zero =>
      intro env c coro r c' h
      simp [SyncReceiver.recvLoop] at h
  | succ n ih =>
      intro env c coro r c' h
      rw [SyncReceiver.recvLoop] at h
      rcases hp : SyncReceiver.try_recv c with ⟨r0, c0⟩
      rw [hp] at h
      cases r0 with
      | ok v => simp at h; simp [← h.1]
      | disconnected => simp at h; simp [← h.1]
      | empty =>
          simp only at h
          cases env with
          | nil => simp at h
          | cons g env1 =>
              simp only at h
              rcases hps : SyncReceiver.parkSetup (g c0) coro with ⟨r1, c2⟩
              rw [hps] at h
              cases r1 with
              | empty =>
                  cases env1 with
                  | nil => simp at h
                  | cons f env2 => exact ih env2 (f c2) coro r c' h
              | ok v => simp at h; simp [← h.1]
              | disconnected => simp at h; simp [← h.1]

theorem SyncSender.sendLoop_result (fuel : Nat) :
    ∀ (env : List (Chan T → Chan T)) (c : Chan T) (t : T) (coro : Nat)
      (r : TrySendRes T) (c' : Chan T),
      SyncSender.sendLoop fuel env c t coro = some (r, c') →
      r = TrySendRes.ok ∨ r = TrySendRes.disconnected t := by
  induction fuel with
  | zero =>
      intro env c t coro r c' h
      simp [SyncSender.sendLoop] at h
  | succ n ih =>
      intro env c t coro r c' h
      rw [SyncSender.sendLoop] at h
      rcases hp : SyncSender.try_send c t with ⟨r0, c0⟩
      rw [hp] at h
      cases r0 with
      | ok => simp at h; simp [← h.1]
      | disconnected e =>
          have he := (SyncSender.try_send_disconnected_inv c t e (by rw [hp])).1
          simp at h
          simp [← h.1, he]
      | full t1 =>
          have ht1 := (SyncSender.try_send_full_inv c t t1 (by rw [hp])).1
          simp only at h
          cases env with
          | nil => simp at h
          | cons g env1 =>
              simp only at h
              rcases hps : SyncSender.parkSetup (g c0) t1 coro with ⟨r1, c2⟩
              rw [hps] at h
              have hst : r1 = (SyncSender.try_send (g c0) t1).1 := by
                have hx := SyncSender.sendParkSetup_stash (g c0) t1 coro
                rw [hps] at hx
                exact hx
              cases r1 with
              | full t2 =>
                  have ht2 := (SyncSender.try_send_full_inv (g c0) t1 t2 hst.symm).1
                  cases env1 with
                  | nil => simp at h
                  | cons f env2 =>
                      rcases ih env2 (f c2) t2 coro r c' h with h1 | h1
                      · exact Or.inl h1
                      · subst ht2; subst ht1; exact Or.inr h1
              | ok => simp at h; simp [← h.1]
              | disconnected t2 =>
                  have ht2 := (SyncSender.try_send_disconnected_inv (g c0) t1 t2 hst.symm).1
                  simp at h
                  subst ht2; subst ht1
                  simp [← h.1]

end CoioMpsc

namespace CoioMpsc

variable {T : Type}

theorem Receiver.recvLoop_park_step (c : Chan T) (coro fuel : Nat)
    (g f : Chan T → Chan T) (env : List (Chan T → Chan T))
    (hp : (prim_try_recv c).1 = TryRecvRes.empty)
    (h : (Receiver.parkSetup (g c) coro).1 = TryRecvRes.empty) :
    Receiver.recvLoop (fuel + 1) (g :: f :: env) c coro =
      Receiver.recvLoop fuel env (f (Receiver.parkSetup (g c) coro).2) coro := by
  have he : Receiver.try_recv c = (TryRecvRes.empty, c) := prim_try_recv_empty c hp
  rcases hps : Receiver.parkSetup (g c) coro with ⟨r1, c2⟩
  rw [hps] at h
  simp at h
  subst h
  rw [Receiver.recvLoop, he]
  simp [hps]

theorem Receiver.recvLoop_cancel_step (c : Chan T) (coro fuel : Nat)
    (g : Chan T → Chan T) (env : List (Chan T → Chan T))
    (hp : (prim_try_recv c).1 = TryRecvRes.empty)
    (h : (Receiver.parkSetup (g c) coro).1 ≠ TryRecvRes.empty) :
    Receiver.recvLoop (fuel + 1) (g :: env) c coro =
      some (Receiver.parkSetup (g c) coro) := by
  have he : Receiver.try_recv c = (TryRecvRes.empty, c) := prim_try_recv_empty c hp
  rcases hps : Receiver.parkSetup (g c) coro with ⟨r1, c2⟩
  rw [hps] at h
  simp at h
  rw [Receiver.recvLoop, he]
  cases r1 <;> simp_all [hps]

theorem SyncSender.sendLoop_park_step (c : Chan T) (t t1 t2 : T)
    (coro fuel : Nat) (g f : Chan T → Chan T) (env : List (Chan T → Chan T))
    (hfull : (SyncSender.try_send c t).1 = TrySendRes.full t1)
    (h : (SyncSender.parkSetup (g c) t1 coro).1 = TrySendRes.full t2) :
    SyncSender.sendLoop (fuel + 1) (g :: f :: env) c t coro =
      SyncSender.sendLoop fuel env
        (f (SyncSender.parkSetup (g c) t1 coro).2) t2 coro := by
  obtain ⟨ht1, he⟩ := SyncSender.try_send_full_inv c t t1 hfull
  rw [ht1] at h ⊢
  rcases hps : SyncSender.parkSetup (g c) t coro with ⟨r1, c2⟩
  rw [hps] at h
  simp at h
  subst h
  rw [SyncSender.sendLoop, he]
  simp [hps]

theorem SyncSender.sendLoop_cancel_step (c : Chan T) (t t1 : T)
    (coro fuel : Nat) (g : Chan T → Chan T) (env : List (Chan T → Chan T))
    (hfull : (SyncSender.try_send c t).1 = TrySendRes.full t1)
    (h : ∀ u, (SyncSender.parkSetup (g c) t1 coro).1 ≠ TrySendRes.full u) :
    SyncSender.sendLoop (fuel + 1) (g :: env) c t coro =
      some (SyncSender.parkSetup (g c) t1 coro) := by
  obtain ⟨ht1, he⟩ := SyncSender.try_send_full_inv c t t1 hfull
  rw [ht1] at h ⊢
  rcases hps : SyncSender.parkSetup (g c) t coro with ⟨r1, c2⟩
  have h' : ∀ u, r1 ≠ TrySendRes.full u := by
    intro u
    have hx := h u
    rw [hps] at hx
    simpa using hx
  rw [SyncSender.sendLoop, he]
  cases r1 with
  | ok => simp [hps]
  | disconnected u => simp [hps]
  | full u => exact absurd rfl (h' u)

end CoioMpsc

namespace CoioMpsc

variable {T : Type}

theorem list_ne_append_singleton {α : Type} (l : List α) (a : α) :
    l ≠ l ++ [a] := by
  intro hh
  have hl := congrArg List.length hh
  simp at hl

theorem SyncSender.try_send_sendWait (c : Chan T) (t : T) :
    (SyncSender.try_send c t).2.sendWait = c.sendWait := by
  rw [SyncSender.try_send_eq]
  by_cases hb : c.receiverAlive = false
  · simp [hb]
  · rcases hc : c.cap with _ | k
    · simp [hb, hc]
    · by_cases hk : k ≤ c.queue.length <;> simp [hb, hc, hk]

/-- C1: In the parking protocol of `Receiver::recv` and `SyncSender::send`,
the setup routine that runs before the context switch re-attempts the
non-blocking operation under the wait-list lock, and pushes the coroutine's
handle onto the wait list if and only if that re-attempt still reports
`Empty` (receive side) / `Full` (send side); if the re-attempt succeeds or
reports `Disconnected` the handle is instead marked ready, cancelling the
suspend, and the re-attempt's result is stashed; and upon regaining control
a stashed `Empty`/`Full` makes the loop retry the non-blocking attempt
rather than return, while a stashed success/`Disconnected` is returned. -/
theorem C1_parking_protocol_double_check (c : Chan T) (coro : Nat) (t t1 : T)
    (fuel : Nat) (g f : Chan T → Chan T) (env : List (Chan T → Chan T)) :
    ((Receiver.parkSetup c coro).1 = (Receiver.try_recv c).1) ∧
    ((SyncSender.parkSetup c t coro).1 = (SyncSender.try_send c t).1) ∧
    ((Receiver.parkSetup c coro).1 = TryRecvRes.empty ↔
      (Receiver.parkSetup c coro).2.recvWait = c.recvWait ++ [coro]) ∧
    ((Receiver.parkSetup c coro).1 ≠ TryRecvRes.empty ↔
      (Receiver.parkSetup c coro).2.ready = c.ready ++ [coro]) ∧
    ((∃ u, (SyncSender.parkSetup c t coro).1 = TrySendRes.full u) ↔
      (SyncSender.parkSetup c t coro).2.sendWait = c.sendWait ++ [coro]) ∧
    ((∀ u, (SyncSender.parkSetup c t coro).1 ≠ TrySendRes.full u) ↔
      (SyncSender.parkSetup c t coro).2.ready =
        (SyncSender.try_send c t).2.ready ++ [coro]) ∧
    ((prim_try_recv c).1 = TryRecvRes.empty →
      (Receiver.parkSetup (g c) coro).1 = TryRecvRes.empty →
      Receiver.recvLoop (fuel + 1) (g :: f :: env) c coro =
        Receiver.recvLoop fuel env (f (Receiver.parkSetup (g c) coro).2) coro) ∧
    ((prim_try_recv c).1 = TryRecvRes.empty →
      (Receiver.parkSetup (g c) coro).1 ≠ TryRecvRes.empty →
      Receiver.recvLoop (fuel + 1) (g :: env) c coro =
        some (Receiver.parkSetup (g c) coro)) ∧
    ((SyncSender.try_send c t).1 = TrySendRes.full t1 →
      ∀ t2, (SyncSender.parkSetup (g c) t1 coro).1 = TrySendRes.full t2 →
      SyncSender.sendLoop (fuel + 1) (g :: f :: env) c t coro =
        SyncSender.sendLoop fuel env
          (f (SyncSender.parkSetup (g c) t1 coro).2) t2 coro) ∧
    ((SyncSender.try_send c t).1 = TrySendRes.full t1 →
      (∀ u, (SyncSender.parkSetup (g c) t1 coro).1 ≠ TrySendRes.full u) →
      SyncSender.sendLoop (fuel + 1) (g :: env) c t coro =
        some (SyncSender.parkSetup (g c) t1 coro)) := by
  refine ⟨Receiver.parkSetup_stash c coro, SyncSender.sendParkSetup_stash c t coro,
    ?_, ?_, ?_, ?_,
    fun hp h => Receiver.recvLoop_park_step c coro fuel g f env hp h,
    fun hp h => Receiver.recvLoop_cancel_step c coro fuel g env hp h,
    fun hfull t2 h2 =>
      SyncSender.sendLoop_park_step c t t1 t2 coro fuel g f env hfull h2,
    fun hfull h2 =>
      SyncSender.sendLoop_cancel_step c t t1 coro fuel g env hfull h2⟩
  · by_cases h0 : (prim_try_recv c).1 = TryRecvRes.empty
    · rw [Receiver.parkSetup_empty c coro h0]
      simp
    · rw [Receiver.parkSetup_nonempty c coro h0]
      constructor
      · intro hh
        exact absurd hh h0
      · intro hh
        rw [(prim_try_recv_frame c).2.2.2.2.1] at hh
        exact absurd hh (list_ne_append_singleton _ _)
  · by_cases h0 : (prim_try_recv c).1 = TryRecvRes.empty
    · rw [Receiver.parkSetup_empty c coro h0]
      constructor
      · intro hh
        exact absurd rfl hh
      · intro hh
        simp only at hh
        exact absurd hh (list_ne_append_singleton _ _)
    · rw [Receiver.parkSetup_nonempty c coro h0]
      simp [h0, (prim_try_recv_frame c).2.2.2.2.2]
  · rcases hr : (SyncSender.try_send c t).1 with _ | u | u
    · have hnf : ∀ u, (SyncSender.try_send c t).1 ≠ TrySendRes.full u := by
        intro u hh
        rw [hr] at hh
        simp at hh
      rw [SyncSender.parkSetup_nonfull c t coro hnf]
      constructor
      · intro hh
        obtain ⟨u, hu⟩ := hh
        exact absurd hu (hnf u)
      · intro hh
        rw [SyncSender.try_send_sendWait c t] at hh
        exact absurd hh (list_ne_append_singleton _ _)
    · rw [SyncSender.parkSetup_full c t u coro hr]
      obtain ⟨hu, he⟩ := SyncSender.try_send_full_inv c t u hr
      simp
    · have hnf : ∀ u2, (SyncSender.try_send c t).1 ≠ TrySendRes.full u2 := by
        intro u2 hh
        rw [hr] at hh
        simp at hh
      rw [SyncSender.parkSetup_nonfull c t coro hnf]
      constructor
      · intro hh
        obtain ⟨u2, hu⟩ := hh
        exact absurd hu (hnf u2)
      · intro hh
        rw [SyncSender.try_send_sendWait c t] at hh
        exact absurd hh (list_ne_append_singleton _ _)
  · rcases hr : (SyncSender.try_send c t).1 with _ | u | u
    · have hnf : ∀ u, (SyncSender.try_send c t).1 ≠ TrySendRes.full u := by
        intro u hh
        rw [hr] at hh
        simp at hh
      rw [SyncSender.parkSetup_nonfull c t coro hnf]
      simp [hnf]
    · rw [SyncSender.parkSetup_full c t u coro hr]
      obtain ⟨hu, he⟩ := SyncSender.try_send_full_inv c t u hr
      constructor
      · intro hh
        exact absurd rfl (hh t)
      · intro hh
        rw [he] at hh
        simp only at hh
        exact absurd hh (list_ne_append_singleton _ _)
    · have hnf : ∀ u2, (SyncSender.try_send c t).1 ≠ TrySendRes.full u2 := by
        intro u2 hh
        rw [hr] at hh
        simp at hh
      rw [SyncSender.parkSetup_nonfull c t coro hnf]
      simp [hnf]

end CoioMpsc

namespace CoioMpsc

variable {T : Type}

/-- C4: The blocking entry points never surface `Empty` or `Full`: whenever
the parking loop of `Receiver::recv`, `SyncReceiver::recv` or
`SyncSender::send` reaches a return site, the stashed result being returned
is never `Empty` (receive side) or `Full` (send side) — those outcomes
always cause another loop iteration — so a blocking call only ever completes
with a value/confirmation or the Disconnected-kind error. -/
theorem C4_blocking_never_surfaces_empty_full (fuel : Nat)
    (env : List (Chan T → Chan T)) (c : Chan T) (t : T) (coro : Nat) :
    (∀ r c', Receiver.recvLoop fuel env c coro = some (r, c') →
      r ≠ TryRecvRes.empty) ∧
    (∀ r c', SyncReceiver.recvLoop fuel env c coro = some (r, c') →
      r ≠ TryRecvRes.empty) ∧
    (∀ r c' u, SyncSender.sendLoop fuel env c t coro = some (r, c') →
      r ≠ TrySendRes.full u) :=
  ⟨fun r c' h => Receiver.recvLoop_ne_empty fuel env c coro r c' h,
   fun r c' h => SyncReceiver.syncRecvLoop_ne_empty fuel env c coro r c' h,
   fun r c' u h => by
     rcases SyncSender.sendLoop_result fuel env c t coro r c' h with h1 | h1 <;>
       simp [h1]⟩

/-- C5: A failing send hands the undelivered value back unchanged: a failing
`Sender::send t` returns `SendError(t)`; a failing `SyncSender::try_send t`
returns `Full(t)` or `Disconnected(t)` with exactly `t` inside; and a
failing `SyncSender::send t` returns `SendError(t)` even after any number of
Full-rejection/park/retry rounds and on the no-scheduler fallback path. -/
theorem C5_failed_send_returns_the_value (c : Chan T) (t : T)
    (hasProc : Bool) (fuel : Nat) (env : List (Chan T → Chan T))
    (coro : Nat) :
    (∀ e, (Sender.send c t).1 = SendRes.err e → e = t) ∧
    (∀ e, (SyncSender.try_send c t).1 = TrySendRes.full e → e = t) ∧
    (∀ e, (SyncSender.try_send c t).1 = TrySendRes.disconnected e → e = t) ∧
    (∀ e c', SyncSender.send hasProc fuel env c t coro =
      some (SendRes.err e, c') → e = t) := by
  refine ⟨?_, ?_, ?_, ?_⟩
  · intro e h
    rw [Sender.send_eq] at h
    by_cases hb : c.receiverAlive = true <;> simp [hb] at h
    exact h.symm
  · intro e h
    exact (SyncSender.try_send_full_inv c t e h).1
  · intro e h
    exact (SyncSender.try_send_disconnected_inv c t e h).1
  · intro e c' h
    unfold SyncSender.send at h
    cases hasProc with
    | true =>
        simp only [if_true] at h
        rcases hs : SyncSender.sendLoop fuel env c t coro with _ | ⟨r, c2⟩
        · rw [hs] at h
          simp at h
        · rw [hs] at h
          rcases SyncSender.sendLoop_result fuel env c t coro r c2 hs
            with h1 | h1 <;> subst h1 <;> simp at h
          exact h.1.symm
    | false =>
        simp only [if_false] at h
        unfold prim_send_blocking at h
        by_cases hb : c.receiverAlive = false
        · simp [hb] at h
          exact h.1.symm
        · rcases hc : c.cap with _ | k
          · simp [hb, hc] at h
          · by_cases hk : k ≤ c.queue.length <;> simp [hb, hc, hk] at h

/-- C9: The no-scheduler fallback paths of the bounded channel still perform
wake-on-progress: when `SyncReceiver::recv`'s native blocking receive
succeeds it pops at most one handle from the producer-side wait list and
marks it ready, and when `SyncSender::send`'s native blocking send succeeds
it pops at most one handle from the consumer-side wait list and marks it
ready. -/
theorem C9_fallback_still_wakes (fuel : Nat) (env : List (Chan T → Chan T))
    (c : Chan T) (t : T) (coro : Nat) :
    (∀ v c', SyncReceiver.recv false fuel env c coro =
        some (RecvRes.ok v, c') →
      c'.sendWait = c.sendWait.drop 1 ∧
      c'.ready = c.ready ++ c.sendWait.take 1) ∧
    (∀ c', SyncSender.send false fuel env c t coro = some (SendRes.ok, c') →
      c'.recvWait = c.recvWait.drop 1 ∧
      c'.ready = c.ready ++ c.recvWait.take 1) := by
  constructor
  · intro v c' h
    unfold SyncReceiver.recv at h
    simp only [if_false] at h
    unfold prim_recv_blocking at h
    rcases hq : c.queue with _ | ⟨w, rest⟩
    · rw [hq] at h
      by_cases hs : c.senders = 0 <;> simp [hs] at h
    · rw [hq] at h
      simp [wakeOne_eq] at h
      obtain ⟨hv, hc'⟩ := h
      rw [← hc']
      simp [List.drop_one]
  · intro c' h
    unfold SyncSender.send at h
    simp only [if_false] at h
    unfold prim_send_blocking at h
    by_cases hb : c.receiverAlive = false
    · simp [hb] at h
    · rcases hc : c.cap with _ | k
      · simp [hb, hc, wakeOne_eq] at h
        rw [← h]
        simp [List.drop_one]
      · by_cases hk : k ≤ c.queue.length
        · simp [hb, hc, hk] at h
        · simp [hb, hc, hk, wakeOne_eq] at h
          rw [← h]
          simp [List.drop_one]

end CoioMpsc

namespace CoioMpsc

variable {T : Type}

/-- C2 as stated is refuted by the code: the drop guard compares the
wait-list `Arc` strong count against 2, and that count includes the
receiver's reference.  In a state where the receiver endpoint is already
gone and two producers remain, dropping one producer — which is not the last
of its kind — still drains the receive-side wait list and force-wakes the
parked handle 7, where the claim requires the wait list to be left
untouched. -/
theorem C2_counterexample :
    (Chan.mk [] none 2 false [] [7] [] : Chan Nat).senders = 2 ∧
    (Sender.drop (Chan.mk [] none 2 false [] [7] [] : Chan Nat)).recvWait
      ≠ (Chan.mk [] none 2 false [] [7] [] : Chan Nat).recvWait ∧
    (Sender.drop (Chan.mk [] none 2 false [] [7] [] : Chan Nat)).ready = [7] ∧
    (SyncSender.drop (Chan.mk [] none 2 false [] [7] [] : Chan Nat)).recvWait
      ≠ (Chan.mk [] none 2 false [] [7] [] : Chan Nat).recvWait ∧
    (SyncSender.drop (Chan.mk [] none 2 false [] [7] [] : Chan Nat)).ready
      = [7] := by
  decide

/-- C2 amended: dropping a `Sender` (resp. `SyncSender`) drains and
force-wakes every waiter on the receive-side wait list exactly when the
wait-list strong count — the live producers including the dropped one, plus
one for the receiver endpoint if it still exists — is at most two.  While
the receiver endpoint is alive this coincides with the claim: the last
producer's drop drains and wakes every parked handle, and a drop with other
producers remaining leaves the wait list untouched.  Only when the receiver
has already been dropped does a producer drop with exactly one other
producer remaining also drain the list. -/
theorem C2_amended_drop_drains_iff_count_le_two (c : Chan T) :
    (c.receiverAlive = true → c.senders = 1 →
      (Sender.drop c).recvWait = [] ∧
      (Sender.drop c).ready = c.ready ++ c.recvWait ∧
      (SyncSender.drop c).recvWait = [] ∧
      (SyncSender.drop c).ready = c.ready ++ c.recvWait) ∧
    (c.receiverAlive = true → 2 ≤ c.senders →
      (Sender.drop c).recvWait = c.recvWait ∧
      (Sender.drop c).ready = c.ready ∧
      (SyncSender.drop c).recvWait = c.recvWait ∧
      (SyncSender.drop c).ready = c.ready) ∧
    (c.receiverAlive = false → c.senders ≤ 2 →
      (Sender.drop c).recvWait = [] ∧
      (Sender.drop c).ready = c.ready ++ c.recvWait ∧
      (SyncSender.drop c).recvWait = [] ∧
      (SyncSender.drop c).ready = c.ready ++ c.recvWait) ∧
    (c.receiverAlive = false → 3 ≤ c.senders →
      (Sender.drop c).recvWait = c.recvWait ∧
      (Sender.drop c).ready = c.ready ∧
      (SyncSender.drop c).recvWait = c.recvWait ∧
      (SyncSender.drop c).ready = c.ready) := by
  refine ⟨?_, ?_, ?_, ?_⟩ <;> intro hr hn
  · have hcond : c.senders + (if c.receiverAlive then 1 else 0) ≤ 2 := by
      rw [if_pos hr]
      omega
    simp [Sender.drop, SyncSender.drop, drainWake, if_pos hcond]
  · have hcond : ¬ (c.senders + (if c.receiverAlive then 1 else 0) ≤ 2) := by
      rw [if_pos hr]
      omega
    simp [Sender.drop, SyncSender.drop, drainWake, if_neg hcond]
  · have hcond : c.senders + (if c.receiverAlive then 1 else 0) ≤ 2 := by
      rw [if_neg (by simp [hr])]
      omega
    simp [Sender.drop, SyncSender.drop, drainWake, if_pos hcond]
  · have hcond : ¬ (c.senders + (if c.receiverAlive then 1 else 0) ≤ 2) := by
      rw [if_neg (by simp [hr])]
      omega
    simp [Sender.drop, SyncSender.drop, drainWake, if_neg hcond]

end CoioMpsc

namespace CoioMpsc

/-- Concrete instantiation of the C1 theorem: on an empty one-sender channel
the coroutine parks and the loop recurses; when a send lands in the race
window the suspend is cancelled and the stashed result returned; likewise
for the bounded send side on a full capacity-1 channel. -/
theorem C1_parking_protocol_double_check_witness :
    (Receiver.recvLoop (1 + 1)
        [fun c => c, fun c => c]
        (Chan.mk ([] : List Nat) none 1 true [] [] []) 7 =
      Receiver.recvLoop 1 []
        ((fun c => c)
          (Receiver.parkSetup
            ((fun c => c) (Chan.mk ([] : List Nat) none 1 true [] [] [])) 7).2)
        7) ∧
    (Receiver.recvLoop (0 + 1)
        [fun c => (Sender.send c 42).2]
        (Chan.mk ([] : List Nat) none 1 true [] [] []) 7 =
      some (Receiver.parkSetup
        ((fun c => (Sender.send c 42).2)
          (Chan.mk ([] : List Nat) none 1 true [] [] [])) 7)) ∧
    (SyncSender.sendLoop (1 + 1)
        [fun c => c, fun c => c]
        (Chan.mk [9] (some 1) 1 true [] [] []) 5 7 =
      SyncSender.sendLoop 1 []
        ((fun c => c)
          (SyncSender.parkSetup
            ((fun c => c) (Chan.mk [9] (some 1) 1 true [] [] [])) 5 7).2)
        5 7) ∧
    (SyncSender.sendLoop (0 + 1)
        [fun c => (SyncReceiver.try_recv c).2]
        (Chan.mk [9] (some 1) 1 true [] [] []) 5 7 =
      some (SyncSender.parkSetup
        ((fun c => (SyncReceiver.try_recv c).2)
          (Chan.mk [9] (some 1) 1 true [] [] [])) 5 7)) := by
  refine ⟨?_, ?_, ?_, ?_⟩
  · exact (C1_parking_protocol_double_check
      (Chan.mk ([] : List Nat) none 1 true [] [] []) 7 0 0 1
      (fun c => c) (fun c => c) []).2.2.2.2.2.2.1 rfl rfl
  · exact (C1_parking_protocol_double_check
      (Chan.mk ([] : List Nat) none 1 true [] [] []) 7 0 0 0
      (fun c => (Sender.send c 42).2) (fun c => c) []).2.2.2.2.2.2.2.1
      rfl (by decide)
  · exact (C1_parking_protocol_double_check
      (Chan.mk [9] (some 1) 1 true [] [] []) 7 5 5 1
      (fun c => c) (fun c => c) []).2.2.2.2.2.2.2.2.1 rfl 5 rfl
  · refine (C1_parking_protocol_double_check
      (Chan.mk [9] (some 1) 1 true [] [] []) 7 5 5 0
      (fun c => (SyncReceiver.try_recv c).2) (fun c => c) []).2.2.2.2.2.2.2.2.2
      rfl ?_
    intro u hu
    rw [show (SyncSender.parkSetup
      ((fun c => (SyncReceiver.try_recv c).2)
        (Chan.mk [9] (some 1) 1 true [] [] [])) 5 7).1 = TrySendRes.ok
      from rfl] at hu
    simp at hu

/-- Concrete instantiation of the C2 amended theorem in all four regimes:
last sender with the receiver alive (drains), two senders with the receiver
alive (untouched), two senders with the receiver gone (drains), three
senders with the receiver gone (untouched). -/
theorem C2_amended_drop_drains_iff_count_le_two_witness :
    (Sender.drop (Chan.mk ([] : List Nat) none 1 true [] [5] [])).recvWait
      = [] ∧
    (Sender.drop (Chan.mk ([] : List Nat) none 2 true [] [5] [])).recvWait
      = (Chan.mk ([] : List Nat) none 2 true [] [5] []).recvWait ∧
    (Sender.drop (Chan.mk ([] : List Nat) none 2 false [] [5] [])).recvWait
      = [] ∧
    (Sender.drop (Chan.mk ([] : List Nat) none 3 false [] [5] [])).recvWait
      = (Chan.mk ([] : List Nat) none 3 false [] [5] []).recvWait := by
  refine ⟨?_, ?_, ?_, ?_⟩
  · exact ((C2_amended_drop_drains_iff_count_le_two
      (Chan.mk ([] : List Nat) none 1 true [] [5] [])).1 rfl rfl).1
  · exact ((C2_amended_drop_drains_iff_count_le_two
      (Chan.mk ([] : List Nat) none 2 true [] [5] [])).2.1 rfl
      (by decide)).1
  · exact ((C2_amended_drop_drains_iff_count_le_two
      (Chan.mk ([] : List Nat) none 2 false [] [5] [])).2.2.1 rfl
      (by decide)).1
  · exact ((C2_amended_drop_drains_iff_count_le_two
      (Chan.mk ([] : List Nat) none 3 false [] [5] [])).2.2.2 rfl
      (by decide)).1

/-- Concrete instantiation of the C4 theorem: three completed loop runs whose
returned results are not `Empty`/`Full`. -/
theorem C4_blocking_never_surfaces_empty_full_witness :
    ((TryRecvRes.ok 3 : TryRecvRes Nat) ≠ TryRecvRes.empty) ∧
    ((TryRecvRes.ok 4 : TryRecvRes Nat) ≠ TryRecvRes.empty) ∧
    ((TrySendRes.ok : TrySendRes Nat) ≠ TrySendRes.full 9) := by
  refine ⟨?_, ?_, ?_⟩
  · exact (C4_blocking_never_surfaces_empty_full 1 []
      (Chan.mk [3] none 1 true [] [] []) 0 0).1
      (TryRecvRes.ok 3) (Chan.mk [] none 1 true [] [] []) rfl
  · exact (C4_blocking_never_surfaces_empty_full 1 []
      (Chan.mk [4] (some 1) 1 true [] [] []) 0 0).2.1
      (TryRecvRes.ok 4) (Chan.mk [] (some 1) 1 true [] [] []) rfl
  · exact (C4_blocking_never_surfaces_empty_full 1 []
      (Chan.mk ([] : List Nat) (some 1) 1 true [] [] []) 5 0).2.2
      TrySendRes.ok (Chan.mk [5] (some 1) 1 true [] [] []) 9 rfl

/-- Concrete instantiation of the C5 theorem at failing sends on
disconnected and full channels. -/
theorem C5_failed_send_returns_the_value_witness :
    ((5 : Nat) = 5) ∧ ((7 : Nat) = 7) ∧ ((9 : Nat) = 9) ∧ ((8 : Nat) = 8) := by
  refine ⟨?_, ?_, ?_, ?_⟩
  · exact (C5_failed_send_returns_the_value
      (Chan.mk ([] : List Nat) none 1 false [] [] []) 5 true 1 [] 0).1 5 rfl
  · exact (C5_failed_send_returns_the_value
      (Chan.mk [9] (some 1) 1 true [] [] []) 7 true 1 [] 0).2.1 7 rfl
  · exact (C5_failed_send_returns_the_value
      (Chan.mk ([] : List Nat) (some 1) 1 false [] [] []) 9 true 1 [] 0).2.2.1
      9 rfl
  · exact (C5_failed_send_returns_the_value
      (Chan.mk ([] : List Nat) none 1 false [] [] []) 8 true 1 [] 0).2.2.2 8
      (Chan.mk ([] : List Nat) none 1 false [] [] []) rfl

/-- Concrete instantiation of the C6 theorem: each successful operation pops
exactly the head of the relevant wait list and marks it ready. -/
theorem C6_wake_at_most_one_witness :
    ((Sender.send (Chan.mk ([] : List Nat) none 1 true [] [7] []) 5).2.recvWait
        = List.drop 1 [7] ∧
      (Sender.send (Chan.mk ([] : List Nat) none 1 true [] [7] []) 5).2.ready
        = [] ++ List.take 1 [7]) ∧
    ((SyncSender.try_send
        (Chan.mk ([] : List Nat) (some 1) 1 true [] [7] []) 5).2.recvWait
        = List.drop 1 [7] ∧
      (SyncSender.try_send
        (Chan.mk ([] : List Nat) (some 1) 1 true [] [7] []) 5).2.ready
        = [] ++ List.take 1 [7]) ∧
    ((SyncReceiver.try_recv
        (Chan.mk [3] (some 1) 1 true [7] [] [])).2.sendWait
        = List.drop 1 [7] ∧
      (SyncReceiver.try_recv
        (Chan.mk [3] (some 1) 1 true [7] [] [])).2.ready
        = [] ++ List.take 1 [7]) := by
  refine ⟨?_, ?_, ?_⟩
  · exact (C6_wake_at_most_one
      (Chan.mk ([] : List Nat) none 1 true [] [7] []) 5).1 rfl
  · exact (C6_wake_at_most_one
      (Chan.mk ([] : List Nat) (some 1) 1 true [] [7] []) 5).2.1 rfl
  · exact (C6_wake_at_most_one
      (Chan.mk [3] (some 1) 1 true [7] [] []) 0).2.2 3 rfl

/-- Concrete instantiation of the C8 theorem on a full capacity-1 channel. -/
theorem C8_try_send_full_rejection_witness :
    SyncSender.try_send (Chan.mk [9] (some 1) 1 true [2] [3] []) 7 =
      (TrySendRes.full 7, Chan.mk [9] (some 1) 1 true [2] [3] []) :=
  C8_try_send_full_rejection (Chan.mk [9] (some 1) 1 true [2] [3] []) 7 1
    rfl (by decide) rfl

/-- Concrete instantiation of the C9 theorem: the no-scheduler fallback
paths pop and wake the head of the opposite wait list on success. -/
theorem C9_fallback_still_wakes_witness :
    ((Chan.mk ([] : List Nat) (some 1) 1 true [] [] [4]).sendWait
        = List.drop 1 [4] ∧
      (Chan.mk ([] : List Nat) (some 1) 1 true [] [] [4]).ready
        = [] ++ List.take 1 [4]) ∧
    ((Chan.mk [5] (some 1) 1 true [] [] [6]).recvWait = List.drop 1 [6] ∧
      (Chan.mk [5] (some 1) 1 true [] [] [6]).ready = [] ++ List.take 1 [6]) := by
  refine ⟨?_, ?_⟩
  · exact (C9_fallback_still_wakes 0 []
      (Chan.mk [3] (some 1) 1 true [4] [] []) 0 0).1 3
      (Chan.mk ([] : List Nat) (some 1) 1 true [] [] [4]) rfl
  · exact (C9_fallback_still_wakes 0 []
      (Chan.mk ([] : List Nat) (some 1) 1 true [] [6] []) 5 0).2
      (Chan.mk [5] (some 1) 1 true [] [] [6]) rfl

/-- Concrete instantiation of the C10 theorem: rejected operations leave the
channel state untouched. -/
theorem C10_rejection_touches_no_wait_list_witness :
    (Sender.send (Chan.mk ([] : List Nat) none 1 false [] [2] []) 5).2
      = Chan.mk ([] : List Nat) none 1 false [] [2] [] ∧
    (SyncSender.try_send (Chan.mk [9] (some 1) 1 true [2] [3] []) 6).2
      = Chan.mk [9] (some 1) 1 true [2] [3] [] ∧
    (SyncReceiver.try_recv (Chan.mk ([] : List Nat) (some 1) 1 true [2] [] [])).2
      = Chan.mk ([] : List Nat) (some 1) 1 true [2] [] [] := by
  refine ⟨?_, ?_, ?_⟩
  · exact (C10_rejection_touches_no_wait_list
      (Chan.mk ([] : List Nat) none 1 false [] [2] []) 5).1 5 rfl
  · exact (C10_rejection_touches_no_wait_list
      (Chan.mk [9] (some 1) 1 true [2] [3] []) 6).2.1 6 rfl
  · exact (C10_rejection_touches_no_wait_list
      (Chan.mk ([] : List Nat) (some 1) 1 true [2] [] []) 0).2.2.2.1 rfl

end CoioMpsc
